import Mathlib

/-!
A shallow embedding of `packages/@uppy/companion/src/server/controllers/url.js`:
the `validateURL` check, the `downloadURL` streaming fetch, and the `meta` and
`get` request handlers, together with interface models of the external
collaborators they call (the `validator` package's `isURL`, the SSRF helpers
`getRedirectEvaluator` / `getProtectedHttpAgent` / `getURLMeta` from
`helpers/request`, and the downstream `Uploader` consumer).

Pure computations are translated as Lean functions; the event-driven parts
(the transport's event stream feeding `downloadURL`, and the handlers'
externally visible actions) are translated as functions from input traces to
output traces, so that temporal claims become statements about traces.
-/

namespace UrlController

/-! ### Character-list helpers used by the URL validator model -/

def lowerChars (l : List Char) : List Char := l.map Char.toLower

/-- The part of `l` strictly before the first occurrence of `sep`
(all of `l` when `sep` does not occur). -/
def cutAt (sep : Char) (l : List Char) : List Char := l.takeWhile (fun c => c != sep)

/-- The part of `l` strictly after the first occurrence of `sep`
(empty when `sep` does not occur). -/
def afterFirst (sep : Char) (l : List Char) : List Char :=
  (l.dropWhile (fun c => c != sep)).drop 1

/-- Split at the first occurrence of the pattern `pat`, returning the pieces
before and after it, like JavaScript `s.split(pat)` when only the first
occurrence matters. -/
def splitFirst (pat : List Char) : List Char → Option (List Char × List Char)
  | [] => none
  | c :: cs =>
    if pat.isPrefixOf (c :: cs) then some ([], (c :: cs).drop pat.length)
    else
      match splitFirst pat cs with
      | some (a, b) => some (c :: a, b)
      | none => none

/-- JavaScript `s.split('.')`. -/
def splitDots : List Char → List (List Char)
  | [] => [[]]
  | c :: rest =>
    if c == '.' then [] :: splitDots rest
    else
      match splitDots rest with
      | [] => [[c]]
      | p :: ps => (c :: p) :: ps

def digitsToNat (l : List Char) : Nat := l.foldl (fun n c => n * 10 + (c.toNat - 48)) 0

/-! ### Model of the external `validator` package's `isURL` -/

/-- Modelled from the spec: the options of the external `validator` package's
`isURL` that the controller uses (`ValidationPolicy` of the spec:
`allowedProtocols`, `requireProtocol`, `requireTLD`); the package itself is not
part of this repository. -/
structure IsURLOptions where
  protocols : List String
  require_protocol : Bool
  require_tld : Bool
deriving DecidableEq

def protocolAllowed (protocols : List String) (p : String) : Bool :=
  protocols.any (fun q => p == q)

def labelChar (c : Char) : Bool := c.isAlphanum || c == '-'

def validLabel (l : List Char) : Bool :=
  !l.isEmpty && decide (l.length ≤ 63) && l.all labelChar &&
    !(l.head? == some '-') && !(l.getLast? == some '-')

/-- A top-level label: at least two characters, all alphabetic. -/
def tldOk (l : List Char) : Bool := decide (2 ≤ l.length) && l.all Char.isAlpha

/-- Modelled from the spec: the `validator` package's fully-qualified domain
name check; with `requireTld` a hostname needs at least two dot-separated
labels and an alphabetic top-level label, without it bare hostnames such as
`localhost` are accepted. -/
def isFQDN (host : List Char) (requireTld : Bool) : Bool :=
  (splitDots host).all validLabel &&
    (!requireTld ||
      (decide (2 ≤ (splitDots host).length) && tldOk ((splitDots host).getLastD [])))

def octetOk (l : List Char) : Bool :=
  !l.isEmpty && l.all Char.isDigit && decide (digitsToNat l ≤ 255) &&
    (l.length == 1 || !(l.head? == some '0'))

def isIPv4 (host : List Char) : Bool :=
  (splitDots host).length == 4 && (splitDots host).all octetOk

def portOk (l : List Char) : Bool :=
  !l.isEmpty && decide (l.length ≤ 5) && l.all Char.isDigit &&
    decide (1 ≤ digitsToNat l) && decide (digitsToNat l ≤ 65535)

def hostOk (host : List Char) (requireTld : Bool) : Bool :=
  !host.isEmpty && (isIPv4 host || isFQDN host requireTld)

/-- Host-and-port check on everything following the scheme separator:
drop the path (first `/` on), drop credentials (up to the first `@`),
then validate an optional numeric port and the hostname itself. -/
def hostPartOk (rest : List Char) (requireTld : Bool) : Bool :=
  if rest.isEmpty then false
  else
    let hostport := cutAt '/' rest
    let hostAuth := if hostport.contains '@' then afterFirst '@' hostport else hostport
    if hostAuth.contains ':' then
      portOk (afterFirst ':' hostAuth) && hostOk (cutAt ':' hostAuth) requireTld
    else hostOk hostAuth requireTld

def schemeSep : List Char := "://".data

def mailtoChars : List Char := "mailto:".data

def badURLChar (c : Char) : Bool :=
  c == ' ' || c == '\t' || c == '\n' || c == '\r' || c == '<' || c == '>'

/-- Drop a `#` fragment and then a `?` query, as the validator does before
parsing scheme and host. -/
def stripQueryFrag (l : List Char) : List Char := cutAt '?' (cutAt '#' l)

/-- Modelled from the spec: the external `validator` package's `isURL`,
restricted to the behavior reachable through the options this controller
passes (scheme allow-list, protocol required, TLD requirement switched by
debug mode). Bracketed IPv6 hosts are not modelled. -/
def isURL (url : String) (opts : IsURLOptions) : Bool :=
  if url.data.isEmpty then false
  else if decide (2083 ≤ url.data.length) then false
  else if url.data.any badURLChar then false
  else if mailtoChars.isPrefixOf url.data then false
  else
    match splitFirst schemeSep (stripQueryFrag url.data) with
    | some (proto, rest) =>
      if protocolAllowed opts.protocols (String.mk (lowerChars proto)) then
        hostPartOk rest opts.require_tld
      else false
    | none =>
      if opts.require_protocol then false
      else hostPartOk (stripQueryFrag url.data) opts.require_tld

/-- The scheme the validator's parser sees in a URL string (lowercased),
`none` when there is no explicit `://` separator. -/
def urlScheme (url : String) : Option String :=
  match splitFirst schemeSep (stripQueryFrag url.data) with
  | some (proto, _) => some (String.mk (lowerChars proto))
  | none => none

/-- The `validURLOpts` object built inside `validateURL`:
`{ protocols: ['http', 'https'], require_protocol: true, require_tld: !debug }`. -/
def validURLOpts (debug : Bool) : IsURLOptions :=
  { protocols := ["http", "https"], require_protocol := true, require_tld := !debug }

/-- `validateURL` from the controller: missing/empty URL fails, otherwise the
validator's `isURL` with the options above decides. -/
def validateURL (url : String) (debug : Bool) : Bool :=
  if url == "" then false
  else if !(isURL url (validURLOpts debug)) then false
  else true

/-! ### Model of the SSRF helpers and the request options of `downloadURL` -/

/-- Modelled from the spec: `getRedirectEvaluator` from `helpers/request` (not
under `src/`); the spec describes it as a per-hop redirect decision function
bound to the original URL and the `blockLocalIPs` flag, so the model records
that binding. -/
structure RedirectEvaluator where
  originalUrl : String
  blockLocalIPs : Bool
deriving DecidableEq

def getRedirectEvaluator (url : String) (blockLocalIPs : Bool) : RedirectEvaluator :=
  { originalUrl := url, blockLocalIPs := blockLocalIPs }

/-- Modelled from the spec: `getProtectedHttpAgent` from `helpers/request` (not
under `src/`); the spec describes it as a connection strategy keyed by the URL
scheme and the `blockLocalIPs` flag, applied to the initial connection. -/
structure HttpAgentClass where
  scheme : String
  blockLocalIPs : Bool
deriving DecidableEq

def getProtectedHttpAgent (protocol : String) (blockLocalIPs : Bool) : HttpAgentClass :=
  { scheme := protocol, blockLocalIPs := blockLocalIPs }

/-- The scheme part of `new URL(url).protocol`: the lowercased text before the
first colon, followed by the colon. -/
def urlProtocol (url : String) : String :=
  String.mk (lowerChars (url.data.takeWhile (fun c => c != ':')) ++ [':'])

/-- The options object `downloadURL` passes to `request(...)`. -/
structure RequestOpts where
  uri : String
  method : String
  followRedirect : RedirectEvaluator
  agentClass : HttpAgentClass
deriving DecidableEq

def downloadURLOpts (url : String) (blockLocalIPs : Bool) : RequestOpts :=
  { uri := url
    method := "GET"
    followRedirect := getRedirectEvaluator url blockLocalIPs
    agentClass := getProtectedHttpAgent (urlProtocol url) blockLocalIPs }

/-! ### Event model of the streaming fetch in `downloadURL` -/

/-- Events the `request` transport emits to `downloadURL`: the response header
(with its status), body fragments of the response object, and the
stream-level `end` and `error` events. -/
inductive REvent
  | response (status : Nat)
  | rdata (chunk : List Nat)
  | rend
  | rerror (errId : Nat)
deriving DecidableEq

/-- The error argument of an `onDataChunk(err, null)` call: the status error
`downloadURL` constructs for a response with status `≥ 300`, or an error
forwarded from the transport's `error` event. -/
inductive DLError
  | upstream (status : Nat)
  | stream (errId : Nat)
deriving DecidableEq

/-- One `onDataChunk` call: a data chunk `(null, chunk)`, an error
`(err, null)`, or the end-of-stream sentinel `(null, null)`. -/
inductive CEvent
  | cdata (chunk : List Nat)
  | cerror (err : DLError)
  | cend
deriving DecidableEq

def CEvent.isTerminal : CEvent → Bool
  | CEvent.cdata _ => false
  | CEvent.cerror _ => true
  | CEvent.cend => true

def CEvent.isData : CEvent → Bool
  | CEvent.cdata _ => true
  | _ => false

/-- The `onDataChunk` calls produced by `downloadURL`'s event handlers, given
the transport's event trace. The boolean records whether the handler has
attached the response `data` listener (which it does only for a status
`< 300`); `data` fragments arriving without that listener are not forwarded.
A response with status `≥ 300` triggers `onDataChunk(err, null)` immediately;
`end` triggers `onDataChunk(null, null)`; `error` forwards the error. -/
def processREvents : Bool → List REvent → List CEvent
  | _, [] => []
  | streaming, REvent.response s :: rest =>
    if 300 ≤ s then CEvent.cerror (DLError.upstream s) :: processREvents streaming rest
    else processREvents true rest
  | streaming, REvent.rdata c :: rest =>
    if streaming then CEvent.cdata c :: processREvents streaming rest
    else processREvents streaming rest
  | streaming, REvent.rend :: rest => CEvent.cend :: processREvents streaming rest
  | streaming, REvent.rerror i :: rest =>
    CEvent.cerror (DLError.stream i) :: processREvents streaming rest

/-- `downloadURL`: builds the request options (installing the redirect
evaluator and the protected agent) and reacts to the transport's events with
`onDataChunk` calls. -/
def downloadURL (url : String) (blockLocalIPs : Bool) (transport : List REvent) :
    RequestOpts × List CEvent :=
  (downloadURLOpts url blockLocalIPs, processREvents false transport)

/-- A complete response body as the `request` transport delivers it: body
fragments followed by exactly one stream-terminal event (`end` on clean
completion — also after a non-2xx response, which is a completed HTTP
exchange — or `error` on a mid-stream transport failure). -/
def validBody : List REvent → Bool
  | [] => false
  | REvent.rdata _ :: rest => validBody rest
  | REvent.rend :: rest => rest.isEmpty
  | REvent.rerror _ :: rest => rest.isEmpty
  | REvent.response _ :: _ => false

/-- A complete event trace of one fetch session: either a connect-time error
with no response, or a response header followed by a complete body. -/
def validTrace : List REvent → Bool
  | REvent.rerror _ :: rest => rest.isEmpty
  | REvent.response _ :: body => validBody body
  | _ => false

def terminalCount : List CEvent → Nat
  | [] => 0
  | e :: rest => (if e.isTerminal then 1 else 0) + terminalCount rest

/-- After any terminal event in the list, no data event follows. -/
def noDataAfterTerminal : List CEvent → Bool
  | [] => true
  | e :: rest =>
    (if e.isTerminal then rest.all (fun c => !c.isData) else true) && noDataAfterTerminal rest

/-! ### Models of the `meta` and `get` request handlers -/

/-- The metadata `getURLMeta` resolves: size and content type. -/
structure FetchMetadata where
  size : Option Nat
  contentType : Option String
deriving DecidableEq

/-- Modelled from the spec: the failure modes of `getURLMeta` from
`helpers/request` (not under `src/`): an upstream error carrying the non-success
HTTP status, or a transport error (connect/timeout/DNS) carrying no status. -/
inductive MetaError
  | upstream (status : Nat)
  | transport
deriving DecidableEq

/-- The `status` property the handlers read off a caught error
(`none` models the property being absent). -/
def MetaError.statusField : MetaError → Option Nat
  | MetaError.upstream s => some s
  | MetaError.transport => none

/-- `err.status || 500`: the JavaScript truthiness default, under which an
absent status — and also a literal status `0`, which is falsy — yields 500. -/
def errStatus (e : MetaError) : Nat :=
  match e.statusField with
  | some s => if s = 0 then 500 else s
  | none => 500

/-- Modelled from the spec: the downstream `Uploader` consumer (not under
`src/`) as the handlers observe it: a pre-flight error state `hasError()` and
a serializable response `getResponse()` with a status and a body. -/
structure UploaderModel where
  hasError : Bool
  status : Nat
  bodyId : Nat
deriving DecidableEq

/-- The response bodies the controller can send. -/
inductive Body
  | invalidRequest
  | metaFailure
  | urlMeta (size : Option Nat) (contentType : Option String)
  | uploader (id : Nat)
deriving DecidableEq

/-- The externally visible actions of a handler run, in order: I/O calls with
the arguments the handler passes, uploader construction, registration and
firing of the one-shot readiness hook, starting the download, and the HTTP
response. -/
inductive Action
  | fetchMeta (url : String) (blockLocalIPs : Bool)
  | constructUploader (size : Option Nat)
  | registerSocketReady
  | socketReady
  | download (url : String) (blockLocalIPs : Bool)
  | respond (status : Nat) (body : Body)
deriving DecidableEq

/-- The `meta` handler: validate, then resolve metadata with
`getURLMeta(url, !debug)` and answer with it; a validation failure answers 400
with the generic body before any I/O; a resolver failure answers
`err.status || 500` with the generic failure message. The resolver's outcome
is a parameter, since `getURLMeta` performs network I/O. -/
def meta (url : String) (debug : Bool) (metaResult : Except MetaError FetchMetadata) :
    List Action :=
  if !validateURL url debug then
    [Action.respond 400 Body.invalidRequest]
  else
    match metaResult with
    | Except.ok m =>
      [Action.fetchMeta url (!debug), Action.respond 200 (Body.urlMeta m.size m.contentType)]
    | Except.error e =>
      [Action.fetchMeta url (!debug), Action.respond (errStatus e) Body.metaFailure]

/-- The `get` handler: validate, resolve metadata, construct the uploader from
the resolved size, answer the uploader's pre-flight error if it has one,
otherwise register the one-shot `onSocketReady` callback (whose body calls
`downloadURL(url, ..., !debug, ...)`) and answer the uploader's response. The
trailing events model the uploader later firing the readiness hook, which is
when — and only when — the registered callback starts the download. -/
def get (url : String) (debug : Bool) (metaResult : Except MetaError FetchMetadata)
    (mkUploader : Option Nat → UploaderModel) (socketReadyFires : Bool) : List Action :=
  if !validateURL url debug then
    [Action.respond 400 Body.invalidRequest]
  else
    match metaResult with
    | Except.error e =>
      [Action.fetchMeta url (!debug), Action.respond (errStatus e) Body.metaFailure]
    | Except.ok m =>
      if (mkUploader m.size).hasError then
        [Action.fetchMeta url (!debug), Action.constructUploader m.size,
         Action.respond (mkUploader m.size).status (Body.uploader (mkUploader m.size).bodyId)]
      else
        [Action.fetchMeta url (!debug), Action.constructUploader m.size,
         Action.registerSocketReady,
         Action.respond (mkUploader m.size).status (Body.uploader (mkUploader m.size).bodyId)] ++
          (if socketReadyFires then [Action.socketReady, Action.download url (!debug)] else [])

/-- Scans an action trace and checks that every download action is strictly
preceded by a readiness signal; the boolean carries whether a readiness signal
has been seen so far. -/
def downloadsAfterReady : Bool → List Action → Bool
  | _, [] => true
  | _, Action.socketReady :: rest => downloadsAfterReady true rest
  | seen, Action.download _ _ :: rest => seen && downloadsAfterReady seen rest
  | seen, Action.fetchMeta _ _ :: rest => downloadsAfterReady seen rest
  | seen, Action.constructUploader _ :: rest => downloadsAfterReady seen rest
  | seen, Action.registerSocketReady :: rest => downloadsAfterReady seen rest
  | seen, Action.respond _ _ :: rest => downloadsAfterReady seen rest

/-- Actions the handlers must not perform for an invalid URL: metadata I/O,
uploader construction, and the download. -/
def touchesNetworkOrUploader : Action → Bool
  | Action.fetchMeta _ _ => true
  | Action.download _ _ => true
  | Action.constructUploader _ => true
  | _ => false

/-- Whether an action's `blockLocalIPs` argument (when it has one) is the
negation of the debug flag. -/
def actionFlagMatches (debug : Bool) : Action → Bool
  | Action.fetchMeta _ b => b == !debug
  | Action.download _ b => b == !debug
  | _ => true

/-! ### Helper lemmas about the streaming event model -/

theorem isData_false_of_isTerminal {e : CEvent} (h : e.isTerminal = true) :
    e.isData = false := by
  cases e <;> simp_all [CEvent.isTerminal, CEvent.isData]

theorem processREvents_false_of_validBody (body : List REvent) (h : validBody body = true) :
    ∃ e, processREvents false body = [e] ∧ e.isTerminal = true := by
  induction body with
  | nil => simp [validBody] at h
  | cons x rest ih =>
    cases x with
    | response s => simp [validBody] at h
    | rdata c =>
      simp only [validBody] at h
      simpa [processREvents] using ih h
    | rend =>
      simp only [validBody] at h
      cases rest with
      | nil => exact ⟨CEvent.cend, by simp [processREvents], rfl⟩
      | cons y ys => simp at h
    | rerror i =>
      simp only [validBody] at h
      cases rest with
      | nil => exact ⟨CEvent.cerror (DLError.stream i), by simp [processREvents], rfl⟩
      | cons y ys => simp at h

theorem processREvents_true_of_validBody (body : List REvent) (h : validBody body = true) :
    terminalCount (processREvents true body) = 1 ∧
      noDataAfterTerminal (processREvents true body) = true := by
  induction body with
  | nil => simp [validBody] at h
  | cons x rest ih =>
    cases x with
    | response s => simp [validBody] at h
    | rdata c =>
      simp only [validBody] at h
      obtain ⟨h1, h2⟩ := ih h
      constructor
      · simpa [processREvents, terminalCount, CEvent.isTerminal] using h1
      · simpa [processREvents, noDataAfterTerminal, CEvent.isTerminal] using h2
    | rend =>
      simp only [validBody] at h
      cases rest with
      | nil =>
        constructor <;> simp [processREvents, terminalCount, noDataAfterTerminal,
          CEvent.isTerminal, CEvent.isData]
      | cons y ys => simp at h
    | rerror i =>
      simp only [validBody] at h
      cases rest with
      | nil =>
        constructor <;> simp [processREvents, terminalCount, noDataAfterTerminal,
          CEvent.isTerminal, CEvent.isData]
      | cons y ys => simp at h

/-! ### Claim theorems -/

/-- Claim C1, counterexample: the claim that the chunk callback receives at
most one terminal event fails. For a fetch whose response arrives with status
404 and whose stream then completes (a valid, completed transport trace — a
non-2xx response is still a completed HTTP exchange, so the transport's `end`
event fires), `downloadURL` delivers the status error at `response` time and
then the end-of-stream sentinel at `end` time: two terminal events. -/
theorem downloadURL_two_terminal_events_at_404 :
    validTrace [REvent.response 404, REvent.rend] = true ∧
      ¬ terminalCount
          (downloadURL "http://example.com/file" true
            [REvent.response 404, REvent.rend]).2 ≤ 1 := by
  decide

/-- Claim C1, amended: for every completed fetch session no data chunk is
delivered after a terminal event, and at most one terminal event is delivered
unless the response status is `≥ 300` — in that case the status error can be
followed by the stream's own terminal event, so up to two terminal events are
delivered. -/
theorem downloadURL_terminal_discipline (url : String) (b : Bool) (t : List REvent)
    (h : validTrace t = true) :
    noDataAfterTerminal (downloadURL url b t).2 = true ∧
      terminalCount (downloadURL url b t).2 ≤ 2 ∧
      ((∃ s body, t = REvent.response s :: body ∧ 300 ≤ s) ∨
        terminalCount (downloadURL url b t).2 ≤ 1) := by
  cases t with
  | nil => simp [validTrace] at h
  | cons x rest =>
    cases x with
    | rdata c => simp [validTrace] at h
    | rend => simp [validTrace] at h
    | rerror i =>
      simp only [validTrace] at h
      cases rest with
      | cons y ys => simp at h
      | nil =>
        refine ⟨?_, ?_, Or.inr ?_⟩ <;>
          simp [downloadURL, processREvents, noDataAfterTerminal, terminalCount,
            CEvent.isTerminal, CEvent.isData]
    | response s =>
      simp only [validTrace] at h
      by_cases hs : 300 ≤ s
      · obtain ⟨e, he, hterm⟩ := processREvents_false_of_validBody rest h
        have hev : (downloadURL url b (REvent.response s :: rest)).2
            = CEvent.cerror (DLError.upstream s) :: [e] := by
          show processREvents false (REvent.response s :: rest) = _
          simp [processREvents, hs, he]
        rw [hev]
        refine ⟨?_, ?_, Or.inl ⟨s, rest, rfl, hs⟩⟩
        · simp [noDataAfterTerminal, CEvent.isTerminal,
            isData_false_of_isTerminal hterm]
        · have h1 : (CEvent.cerror (DLError.upstream s)).isTerminal = true := rfl
          simp [terminalCount, h1, hterm]
      · obtain ⟨h1, h2⟩ := processREvents_true_of_validBody rest h
        have hev : (downloadURL url b (REvent.response s :: rest)).2
            = processREvents true rest := by
          show processREvents false (REvent.response s :: rest) = _
          simp [processREvents, hs]
        rw [hev]
        exact ⟨h2, by omega, Or.inr (by omega)⟩

/-- Witness for the amended claim C1 at a concrete successful session. -/
theorem downloadURL_terminal_discipline_witness :
    noDataAfterTerminal
        (downloadURL "http://example.com/file" false
          [REvent.response 200, REvent.rdata [104, 105], REvent.rend]).2 = true :=
  (downloadURL_terminal_discipline "http://example.com/file" false
    [REvent.response 200, REvent.rdata [104, 105], REvent.rend] (by decide)).1

/-- Claim C3: every fetch performed by `downloadURL` installs the redirect
evaluator bound to the original URL and the `blockLocalIPs` flag, and the
protected connection agent keyed by the URL's scheme and the same flag, in the
options handed to the transport. -/
theorem downloadURL_installs_redirect_evaluator_and_agent (url : String) (b : Bool)
    (t : List REvent) :
    (downloadURL url b t).1.followRedirect = getRedirectEvaluator url b ∧
      (downloadURL url b t).1.followRedirect.originalUrl = url ∧
      (downloadURL url b t).1.followRedirect.blockLocalIPs = b ∧
      (downloadURL url b t).1.agentClass = getProtectedHttpAgent (urlProtocol url) b ∧
      (downloadURL url b t).1.agentClass.scheme = urlProtocol url ∧
      (downloadURL url b t).1.agentClass.blockLocalIPs = b :=
  ⟨rfl, rfl, rfl, rfl, rfl, rfl⟩

/-- Claim C4: for every fetch whose response arrives with status `≥ 300`,
`downloadURL` delivers an error carrying that upstream status to the callback
and never delivers any data chunk for that response. -/
theorem downloadURL_upstream_status_error (url : String) (b : Bool) (s : Nat)
    (body : List REvent) (hs : 300 ≤ s) (h : validBody body = true) :
    CEvent.cerror (DLError.upstream s) ∈ (downloadURL url b (REvent.response s :: body)).2 ∧
      ∀ c, CEvent.cdata c ∉ (downloadURL url b (REvent.response s :: body)).2 := by
  obtain ⟨e, he, hterm⟩ := processREvents_false_of_validBody body h
  have hev : (downloadURL url b (REvent.response s :: body)).2
      = CEvent.cerror (DLError.upstream s) :: [e] := by
    show processREvents false (REvent.response s :: body) = _
    simp [processREvents, hs, he]
  rw [hev]
  refine ⟨List.mem_cons_self _ _, ?_⟩
  intro c hc
  rcases List.mem_cons.mp hc with h1 | h2
  · exact absurd h1 (by simp)
  · have hce : CEvent.cdata c = e := List.mem_singleton.mp h2
    rw [← hce] at hterm
    simp [CEvent.isTerminal] at hterm

/-- Witness for claim C4 at a concrete 404 session. -/
theorem downloadURL_upstream_status_error_witness :
    CEvent.cerror (DLError.upstream 404) ∈
      (downloadURL "http://example.com/file" true [REvent.response 404, REvent.rend]).2 :=
  (downloadURL_upstream_status_error "http://example.com/file" true 404 [REvent.rend]
    (by decide) (by decide)).1

/-- Claim C2: in the import handler the download is initiated only after the
uploader signals readiness through its one-shot hook: in every run of `get`,
every download action is strictly preceded by the readiness signal, so no
bytes are fetched before the signal is observed. -/
theorem get_download_only_after_socket_ready (url : String) (debug : Bool)
    (metaResult : Except MetaError FetchMetadata) (mkUploader : Option Nat → UploaderModel)
    (socketReadyFires : Bool) :
    downloadsAfterReady false (get url debug metaResult mkUploader socketReadyFires) = true := by
  unfold get
  split
  · simp [downloadsAfterReady]
  · cases metaResult with
    | error e => simp [downloadsAfterReady]
    | ok m =>
      by_cases hu : (mkUploader m.size).hasError
      · simp [hu, downloadsAfterReady]
      · cases socketReadyFires <;> simp [hu, downloadsAfterReady]

/-- Claim C5: a request whose URL fails validation makes both handlers answer
HTTP 400 with the generic error body, and the whole run performs no metadata
fetch, no uploader construction and no download. -/
theorem invalid_url_rejected_before_work (url : String) (debug : Bool)
    (metaResult : Except MetaError FetchMetadata) (mkUploader : Option Nat → UploaderModel)
    (socketReadyFires : Bool) (h : validateURL url debug = false) :
    meta url debug metaResult = [Action.respond 400 Body.invalidRequest] ∧
      get url debug metaResult mkUploader socketReadyFires
        = [Action.respond 400 Body.invalidRequest] ∧
      (meta url debug metaResult).all (fun a => !touchesNetworkOrUploader a) = true ∧
      (get url debug metaResult mkUploader socketReadyFires).all
        (fun a => !touchesNetworkOrUploader a) = true := by
  have h1 : meta url debug metaResult = [Action.respond 400 Body.invalidRequest] := by
    unfold meta; simp [h]
  have h2 : get url debug metaResult mkUploader socketReadyFires
      = [Action.respond 400 Body.invalidRequest] := by
    unfold get; simp [h]
  exact ⟨h1, h2, by simp [h1, touchesNetworkOrUploader],
    by simp [h2, touchesNetworkOrUploader]⟩

/-- Witness for claim C5 at a concrete invalid URL (disallowed scheme). -/
theorem invalid_url_rejected_before_work_witness :
    meta "ftp://example.com" false (Except.ok ⟨some 10, none⟩)
      = [Action.respond 400 Body.invalidRequest] :=
  (invalid_url_rejected_before_work "ftp://example.com" false (Except.ok ⟨some 10, none⟩)
    (fun _ => ⟨false, 200, 0⟩) true (by decide)).1

/-- Claim C6: for every URL string whose scheme (as the validator parses it)
is not `http` or `https`, and for both values of the debug flag, `validateURL`
returns false; a URL lacking an explicit scheme is likewise invalid, since the
protocol requirement is always in force. -/
theorem validateURL_rejects_disallowed_scheme (url : String) (debug : Bool)
    (h : ∀ s, urlScheme url = some s → s ≠ "http" ∧ s ≠ "https") :
    validateURL url debug = false := by
  have hu : isURL url (validURLOpts debug) = false := by
    unfold isURL
    split
    · rfl
    · split
      · rfl
      · split
        · rfl
        · split
          · rfl
          · cases hsp : splitFirst schemeSep (stripQueryFrag url.data) with
            | none => simp [validURLOpts]
            | some pr =>
              obtain ⟨proto, rest⟩ := pr
              have hscheme : urlScheme url = some (String.mk (lowerChars proto)) := by
                unfold urlScheme
                rw [hsp]
              obtain ⟨h1, h2⟩ := h _ hscheme
              have e1 : (String.mk (lowerChars proto) == "http") = false := by
                cases hb : String.mk (lowerChars proto) == "http"
                · rfl
                · exact absurd (eq_of_beq hb) h1
              have e2 : (String.mk (lowerChars proto) == "https") = false := by
                cases hb : String.mk (lowerChars proto) == "https"
                · rfl
                · exact absurd (eq_of_beq hb) h2
              simp [validURLOpts, protocolAllowed, e1, e2]
  unfold validateURL
  split
  · rfl
  · simp [hu]

/-- Witness for claim C6 at a concrete `ftp://` URL. -/
theorem validateURL_rejects_disallowed_scheme_witness :
    validateURL "ftp://example.com" false = false := by
  apply validateURL_rejects_disallowed_scheme
  intro s hs
  have hscheme : urlScheme "ftp://example.com" = some "ftp" := by decide
  rw [hscheme] at hs
  injection hs with hs2
  subst hs2
  exact ⟨by decide, by decide⟩

/-- Claim C7: with the TLD requirement in force (`debug = false`, so
`require_tld = true`) `http://localhost` is rejected; with `debug = true`
(`require_tld = false`) it is accepted. -/
theorem validateURL_localhost_tld :
    (validURLOpts false).require_tld = true ∧
      validateURL "http://localhost" false = false ∧
      (validURLOpts true).require_tld = false ∧
      validateURL "http://localhost" true = true := by
  decide

/-- Claim C8: when the URL passes validation but metadata resolution fails,
the `meta` handler responds with the status carried by the failure when
present (500 otherwise) and a fixed generic body that does not depend on the
error. The hypothesis on upstream statuses reflects the spec's contract that
`getURLMeta` fails with an upstream error only for non-success statuses
(`≥ 300`); without it, a hypothetical status of `0` would be mapped to 500 by
the JavaScript truthiness default `err.status || 500`. -/
theorem meta_resolver_failure_generic_response (url : String) (debug : Bool) (e : MetaError)
    (hv : validateURL url debug = true)
    (hs : ∀ s, e = MetaError.upstream s → 300 ≤ s) :
    meta url debug (Except.error e) =
      [Action.fetchMeta url (!debug),
       Action.respond (e.statusField.getD 500) Body.metaFailure] := by
  have hE : errStatus e = e.statusField.getD 500 := by
    cases e with
    | transport => rfl
    | upstream s =>
      have h3 : 300 ≤ s := hs s rfl
      have hz : ¬ s = 0 := by omega
      simp [errStatus, MetaError.statusField, hz]
  unfold meta
  simp [hv, hE]

/-- Witness for claim C8 at a concrete upstream 404 failure. -/
theorem meta_resolver_failure_generic_response_witness :
    meta "http://example.com/file.png" false (Except.error (MetaError.upstream 404)) =
      [Action.fetchMeta "http://example.com/file.png" true,
       Action.respond 404 Body.metaFailure] :=
  meta_resolver_failure_generic_response "http://example.com/file.png" false
    (MetaError.upstream 404) (by decide)
    (fun s h => by injection h with h2; omega)

/-- Claim C9: in both handlers, every metadata fetch and every download is
passed `blockLocalIPs = !debug`, and the validator's TLD requirement is the
same negation of the debug flag, so SSRF local-address blocking and the TLD
requirement are disabled by exactly the same condition. -/
theorem block_local_ips_negation_of_debug (url : String) (debug : Bool)
    (metaResult : Except MetaError FetchMetadata) (mkUploader : Option Nat → UploaderModel)
    (socketReadyFires : Bool) :
    (meta url debug metaResult).all (actionFlagMatches debug) = true ∧
      (get url debug metaResult mkUploader socketReadyFires).all
        (actionFlagMatches debug) = true ∧
      (validURLOpts debug).require_tld = !debug := by
  refine ⟨?_, ?_, rfl⟩
  · unfold meta
    split
    · simp [actionFlagMatches]
    · cases metaResult <;> simp [actionFlagMatches]
  · unfold get
    split
    · simp [actionFlagMatches]
    · cases metaResult with
      | error e => simp [actionFlagMatches]
      | ok m =>
        by_cases hu : (mkUploader m.size).hasError
        · simp [hu, actionFlagMatches]
        · cases socketReadyFires <;> simp [hu, actionFlagMatches]

/-- Claim C10: if the uploader reports a pre-flight error right after
construction, the import handler answers with the uploader's own status and
body, does not register the readiness callback, and never starts the
download. -/
theorem uploader_error_prevents_download (url : String) (debug : Bool) (m : FetchMetadata)
    (mkUploader : Option Nat → UploaderModel) (socketReadyFires : Bool)
    (hv : validateURL url debug = true) (he : (mkUploader m.size).hasError = true) :
    get url debug (Except.ok m) mkUploader socketReadyFires =
        [Action.fetchMeta url (!debug), Action.constructUploader m.size,
         Action.respond (mkUploader m.size).status (Body.uploader (mkUploader m.size).bodyId)] ∧
      Action.registerSocketReady ∉ get url debug (Except.ok m) mkUploader socketReadyFires ∧
      ∀ u b, Action.download u b ∉ get url debug (Except.ok m) mkUploader socketReadyFires := by
  have h1 : get url debug (Except.ok m) mkUploader socketReadyFires =
      [Action.fetchMeta url (!debug), Action.constructUploader m.size,
       Action.respond (mkUploader m.size).status (Body.uploader (mkUploader m.size).bodyId)] := by
    unfold get
    simp [hv, he]
  refine ⟨h1, ?_, ?_⟩
  · rw [h1]; simp
  · intro u b; rw [h1]; simp

/-- Witness for claim C10 at a concrete uploader with a pre-flight error. -/
theorem uploader_error_prevents_download_witness :
    get "http://example.com/file.png" false (Except.ok ⟨some 10, none⟩)
        (fun _ => ⟨true, 422, 7⟩) true =
      [Action.fetchMeta "http://example.com/file.png" true,
       Action.constructUploader (some 10),
       Action.respond 422 (Body.uploader 7)] :=
  (uploader_error_prevents_download "http://example.com/file.png" false ⟨some 10, none⟩
    (fun _ => ⟨true, 422, 7⟩) true (by decide) (by decide)).1

end UrlController
